import Mathlib

/-!
Verification of the djedops dashboard's algorithmic core against its design
document: the workflow graph executor (`frontend/lib/workflow-engine.ts`),
the protocol status classifier (`/api/djed?endpoint=djed/state` route), the
arbitrage net-profit estimator and opportunity-history state machine
(arbitrage page), and the client-side retry helper (`useDjedData.ts`).

Numbers are modelled as rationals (`ℚ`); JavaScript timestamps in
milliseconds as integers (`ℤ`); optional/undefined values as `Option`.
The unbounded recursion of the graph walker is embedded with a fuel
argument; every invariant below is proved for all fuel values, and the
top-level entry point supplies `nodes.length + 1` fuel, which bounds the
recursion depth of the source (each nested call marks a fresh node id).
-/

namespace DjedOps

/-! ## Data model (workflow-engine.ts) -/

/-- The `protocolStatus` parameter of `executeWorkflow`: `'OPTIMAL' | 'CRITICAL'`. -/
inductive PStatus
  | OPTIMAL
  | CRITICAL
deriving DecidableEq, Repr

/-- Trigger-condition type tags; `other` stands for any string outside the
five known tags (the `switch` default). -/
inductive CondType
  | dsi_below
  | dsi_above
  | price_below
  | price_above
  | always
  | other
deriving DecidableEq, Repr

/-- The optional trigger condition of a node (`WorkflowNode['condition']`). -/
structure Condition where
  ctype : CondType
  value : Option ℚ
deriving DecidableEq, Repr

/-- A workflow node: id, applet type, optional trigger condition. -/
structure WorkflowNode where
  id : String
  atype : String
  condition : Option Condition
deriving DecidableEq, Repr

/-- A directed edge of the workflow graph (`from`/`to` in the source). -/
structure Connection where
  src : String
  dst : String
deriving DecidableEq, Repr

/-- A workflow: nodes plus connections. -/
structure Workflow where
  id : String
  name : String
  nodes : List WorkflowNode
  connections : List Connection
deriving DecidableEq, Repr

/-- The real-time metrics snapshot fetched once per run (`RealTimeData`). -/
structure RealTimeData where
  reserveRatio : Option ℚ
  ergPrice : Option ℚ
  djedPrice : Option ℚ
  transactions : Option ℕ
deriving DecidableEq, Repr

/-- Per-node record status: `'success' | 'skipped' | 'failed'`. -/
inductive ExecStatus
  | success
  | skipped
  | failed
deriving DecidableEq, Repr

/-- One per-node execution record (timing fields omitted: no claim
mentions wall-clock values). -/
structure NodeExecution where
  nodeId : String
  nodeName : String
  status : ExecStatus
  output : Option String
  error : Option String
deriving DecidableEq, Repr

/-- Overall run status: `'completed' | 'failed'`. -/
inductive RunStatus
  | completed
  | failed
deriving DecidableEq, Repr

/-- The execution log returned by `executeWorkflow` (id/timestamp/duration
fields omitted: derived from wall-clock time, mentioned by no claim). -/
structure ExecutionLogEntry where
  workflowId : String
  workflowName : String
  nodeExecutions : List NodeExecution
  status : RunStatus
deriving DecidableEq, Repr

/-! ## Workflow engine -/

/-- JavaScript `x || d` for an optional number `x`: the default is taken
when `x` is `undefined` or `0` (both falsy). -/
def jsOr (v : Option ℚ) (d : ℚ) : ℚ :=
  match v with
  | none => d
  | some x => if x = 0 then d else x

/-- The `evaluateCondition` helper: real data only; if `dsi` or `price` is falsy
(absent or zero) the condition is `false`, before the type switch. -/
def evaluateCondition (cond : Condition) (rtd : RealTimeData) : Bool :=
  match rtd.reserveRatio, rtd.djedPrice with
  | some dsi, some price =>
    if dsi = 0 ∨ price = 0 then false
    else
      match cond.ctype with
      | .dsi_below => decide (dsi < jsOr cond.value 400)
      | .dsi_above => decide (dsi > jsOr cond.value 500)
      | .price_below => decide (price < jsOr cond.value (95 / 100))
      | .price_above => decide (price > jsOr cond.value (105 / 100))
      | .always => true
      | .other => true
  | _, _ => false

/-- The `generateOutput` helper, abstracted to its applet-type tag: the source builds
a randomized synthetic payload per applet type, and every claim depends
only on whether the output is null, never on the payload's contents. -/
def generateOutput (atype : String) (_rtd : RealTimeData) : String :=
  atype

/-- The `executeNode` walker: skip if visited, evaluate the condition against the
shared snapshot, record success/skipped, and on success recurse into the
outgoing edges. `appletName` stands for `APPLET_DEFINITIONS[type].name`
(the table lives in `workflow-types.ts`). The fuel argument bounds
recursion depth only; the caller supplies enough for any workflow. -/
def executeNode (appletName : String → String) (wf : Workflow) (rtd : RealTimeData) :
    ℕ → WorkflowNode → List NodeExecution × List String → List NodeExecution × List String
  | 0, _, st => st
  | fuel + 1, node, (execs, visited) =>
    if node.id ∈ visited then (execs, visited)
    else
      let shouldExecute :=
        match node.condition with
        | some cond => if cond.ctype = CondType.always then true else evaluateCondition cond rtd
        | none => true
      let output := if shouldExecute then some (generateOutput node.atype rtd) else none
      let execution : NodeExecution :=
        { nodeId := node.id, nodeName := appletName node.atype,
          status := if shouldExecute then .success else .skipped,
          output := output, error := none }
      let execs' := execs ++ [execution]
      let visited' := node.id :: visited
      if shouldExecute then
        let connectedNodes := (wf.connections.filter (fun c => c.src = node.id)).filterMap
          (fun c => wf.nodes.find? (fun n => n.id = c.dst))
        connectedNodes.foldl (fun st n => executeNode appletName wf rtd fuel n st) (execs', visited')
      else (execs', visited')

/-- The synthetic record emitted when the Sentinel policy gate blocks a run. -/
def sentinelBlockedExecution : NodeExecution :=
  { nodeId := "POLICY_ENFORCEMENT", nodeName := "[SENTINEL_POLICY]",
    status := .failed, output := none,
    error := some "[BLOCKED] Execution halted by Sentinel Policy: CRITICAL STATE. Workflow cannot execute while protocol security is compromised." }

/-- The `executeWorkflow` entry point: the CRITICAL policy gate, entry-node discovery
(nodes with no incoming edge, else the first node), depth-first execution
from each entry node, and the overall status. -/
def executeWorkflow (appletName : String → String) (wf : Workflow)
    (protocolStatus : Option PStatus) (rtd : RealTimeData) : ExecutionLogEntry :=
  if protocolStatus = some PStatus.CRITICAL then
    { workflowId := wf.id, workflowName := wf.name,
      nodeExecutions := [sentinelBlockedExecution], status := .failed }
  else
    let incomingConnections := wf.connections.map (fun c => c.dst)
    let entryNodes0 := wf.nodes.filter (fun n => decide (n.id ∉ incomingConnections))
    let entryNodes := if entryNodes0 = [] ∧ wf.nodes ≠ [] then wf.nodes.take 1 else entryNodes0
    let fuel := wf.nodes.length + 1
    let st := entryNodes.foldl (fun st n => executeNode appletName wf rtd fuel n st) ([], [])
    { workflowId := wf.id, workflowName := wf.name,
      nodeExecutions := st.1,
      status := if st.1.any (fun n => n.status = ExecStatus.failed) then .failed else .completed }

/-! ## Protocol status classification (djed/state route) -/

/-- The three-band protocol health status. -/
inductive ProtocolStatus3
  | OPTIMAL
  | WARNING
  | CRITICAL
deriving DecidableEq, Repr

/-- The djed/state route's status ternary:
`reserveRatio >= 400 ? 'OPTIMAL' : reserveRatio >= 200 ? 'WARNING' : 'CRITICAL'`. -/
def classifyStatus (reserveRatio : ℚ) : ProtocolStatus3 :=
  if reserveRatio ≥ 400 then .OPTIMAL
  else if reserveRatio ≥ 200 then .WARNING
  else .CRITICAL

/-! ## Arbitrage page (net profit and opportunity history) -/

/-- Opportunity lifecycle status: `'detected' | 'expired'`. -/
inductive OppStatus
  | detected
  | expired
deriving DecidableEq, Repr

/-- The live arbitrage signal: `'MINT DJED' | 'REDEEM DJED' | 'NO CLEAR EDGE'`. -/
inductive Signal
  | mintDjed
  | redeemDjed
  | noClearEdge
deriving DecidableEq, Repr

/-- One tracked arbitrage opportunity (timestamps in ms since epoch). -/
structure ArbitrageOpportunity where
  id : String
  timestamp : ℤ
  signal : Signal
  dexPrice : ℚ
  protocolPrice : ℚ
  spread : ℚ
  spreadPercent : ℚ
  potentialProfit : ℚ
  liquidity : ℚ
  status : OppStatus
  source : String
deriving DecidableEq, Repr

/-- The `calculateNetProfit` estimator: tokens bought at the DEX price, gross profit per
token times token count, minus DEX fee, slippage and fixed gas cost,
floored at zero. The four rate/cost constants come from environment
variables (defaults 0.003, 0.005, 0.50, 1000) and are passed explicitly;
`protocolPrice` is accepted but unused, as in the source. -/
def calculateNetProfit (dexFeeRate slippageRate fixedGasCost defaultTradeAmount : ℚ)
    (dexPrice _protocolPrice spread : ℚ) (tradeAmount : Option ℚ) : ℚ :=
  let amount := tradeAmount.getD defaultTradeAmount
  let tokensTraded := amount / dexPrice
  let grossProfit := tokensTraded * |spread|
  let dexFee := amount * dexFeeRate
  let slippageCost := amount * slippageRate
  let totalCosts := dexFee + slippageCost + fixedGasCost
  max 0 (grossProfit - totalCosts)

/-- The inputs one `useEffect` evaluation tick reads from `useDexPrice`,
plus the current wall clock. -/
structure TickInput where
  now : ℤ
  dexPrice : ℚ
  protocolPrice : ℚ
  spread : ℚ
  spreadPercent : ℚ
  signal : Signal
  liquidity : ℚ
  source : String
deriving DecidableEq, Repr

/-- The `newOpportunity` object a tick constructs (env defaults for the
fee constants, no explicit trade amount, as at the call site). -/
def newOpportunity (t : TickInput) : ArbitrageOpportunity :=
  { id := "opp-" ++ toString t.now
    timestamp := t.now
    signal := t.signal
    dexPrice := t.dexPrice
    protocolPrice := t.protocolPrice
    spread := t.spread
    spreadPercent := t.spreadPercent
    potentialProfit := calculateNetProfit (3 / 1000) (5 / 1000) (1 / 2) 1000
      t.dexPrice t.protocolPrice t.spread none
    liquidity := t.liquidity
    status := .detected
    source := t.source }

/-- The `isSignificantChange` comparator: no stored entry yet, or the spread moved by
more than 0.1 percentage points, or more than 60 s passed since the most
recent entry's detection. -/
def isSignificantChange (now : ℤ) (spreadPercent : ℚ)
    (prev : List ArbitrageOpportunity) : Bool :=
  match prev.head? with
  | none => true
  | some lastOpp =>
    decide (|lastOpp.spreadPercent - spreadPercent| > 1 / 10)
      || decide (now - lastOpp.timestamp > 60000)

/-- The per-entry expiry pass applied in the significant-change branch:
flip a `detected` entry older than 300 s to `expired`. -/
def expireOld (now : ℤ) (opp : ArbitrageOpportunity) : ArbitrageOpportunity :=
  if now - opp.timestamp > 300000 ∧ opp.status = OppStatus.detected then
    { opp with status := OppStatus.expired }
  else opp

/-- One evaluation tick of the opportunity-history `useEffect`: with a
live signal and |spreadPercent| ≥ 0.5, either prepend-and-truncate (with
the expiry pass) on a significant change or replace the head in place;
with no live signal, expire every `detected` entry. -/
def arbitrageTick (t : TickInput) (prev : List ArbitrageOpportunity) :
    List ArbitrageOpportunity :=
  if t.signal ≠ Signal.noClearEdge ∧ |t.spreadPercent| ≥ 1 / 2 then
    let newOpp := newOpportunity t
    if isSignificantChange t.now t.spreadPercent prev then
      ((newOpp :: prev).take 20).map (expireOld t.now)
    else
      newOpp :: prev.drop 1
  else
    prev.map (fun opp =>
      if opp.status = OppStatus.detected then { opp with status := OppStatus.expired } else opp)

/-! ## Client-side retry helper (useDjedData.ts) -/

/-- Outcome of one run of `fetchWithRetry`: the final result, the list of
backoff delays awaited (ms, in order), and how many fetch attempts ran. -/
structure RetryResult (T : Type) where
  result : Except String T
  delays : List ℕ
  attemptsMade : ℕ

/-- The `for (attempt = 0; attempt < maxRetries; attempt++)` loop of
`fetchWithRetry`. `attempts n` is the outcome of the n-th fetch+parse
(`.error` models a thrown exception); `remaining` counts the loop
iterations left, so the loop condition holds exactly while it is
positive. A delay of `initialDelay * 2 ^ attempt` is awaited only when
`attempt < maxRetries - 1`. -/
def fetchWithRetryGo {T : Type} (attempts : ℕ → Except String T)
    (maxRetries initialDelay : ℕ) :
    ℕ → ℕ → Option String → List ℕ → ℕ → RetryResult T
  | 0, _, lastError, delays, made =>
    { result := .error (lastError.getD "Failed to fetch data after retries"),
      delays := delays, attemptsMade := made }
  | remaining + 1, attempt, _lastError, delays, made =>
    match attempts attempt with
    | .ok v => { result := .ok v, delays := delays, attemptsMade := made + 1 }
    | .error e =>
      if attempt < maxRetries - 1 then
        fetchWithRetryGo attempts maxRetries initialDelay remaining (attempt + 1) (some e)
          (delays ++ [initialDelay * 2 ^ attempt]) (made + 1)
      else
        fetchWithRetryGo attempts maxRetries initialDelay remaining (attempt + 1) (some e)
          delays (made + 1)

/-- The `fetchWithRetry` wrapper with its default parameters `maxRetries = 3`,
`initialDelay = 1000` supplied by every caller in the hook. -/
def fetchWithRetry {T : Type} (attempts : ℕ → Except String T)
    (maxRetries initialDelay : ℕ) : RetryResult T :=
  fetchWithRetryGo attempts maxRetries initialDelay maxRetries 0 none [] 0

/-! ## Executor invariants and concrete instances -/

/-- Invariant of the executor state: recorded node ids are distinct, every
recorded id is in the visited set, and no record is `failed`. -/
def ExecInv (st : List NodeExecution × List String) : Prop :=
  (st.1.map (fun e => e.nodeId)).Nodup
    ∧ (∀ e ∈ st.1, e.nodeId ∈ st.2)
    ∧ (∀ e ∈ st.1, e.status ≠ ExecStatus.failed)

/-- The diamond graph A→B, A→C, B→D, C→D with `always` conditions. -/
def diamondWorkflow : Workflow :=
  { id := "wf-diamond", name := "diamond",
    nodes :=
      [ { id := "A", atype := "djed_monitor", condition := some ⟨CondType.always, none⟩ },
        { id := "B", atype := "djed_sim", condition := some ⟨CondType.always, none⟩ },
        { id := "C", atype := "djed_sentinel", condition := some ⟨CondType.always, none⟩ },
        { id := "D", atype := "djed_ledger", condition := some ⟨CondType.always, none⟩ } ],
    connections := [⟨"A", "B"⟩, ⟨"A", "C"⟩, ⟨"B", "D"⟩, ⟨"C", "D"⟩] }

/-- A complete snapshot used to run concrete workflows. -/
def fullRtd : RealTimeData :=
  { reserveRatio := some 500, ergPrice := some (29 / 20), djedPrice := some 1,
    transactions := some 12 }

/-! ## Concrete inputs for the history claims -/

/-- Tick at t = 60000 ms with an unchanged spread: exactly 60 s after the
stored head entry's detection. -/
def c4tick : TickInput :=
  { now := 60000, dexPrice := 101 / 100, protocolPrice := 1, spread := 1 / 100,
    spreadPercent := 1, signal := .mintDjed, liquidity := 5000, source := "dex" }

/-- Head entry detected at t = 0 with the same spread percent. -/
def c4last : ArbitrageOpportunity :=
  { id := "opp-0", timestamp := 0, signal := .mintDjed, dexPrice := 101 / 100,
    protocolPrice := 1, spread := 1 / 100, spreadPercent := 1, potentialProfit := 0,
    liquidity := 5000, status := .detected, source := "dex" }

/-- A fresh tick 1 s after the head entry, unchanged spread (C4 witness). -/
def c4wtick : TickInput :=
  { now := 1000, dexPrice := 101 / 100, protocolPrice := 1, spread := 1 / 100,
    spreadPercent := 1, signal := .mintDjed, liquidity := 5000, source := "dex" }

/-- Head entry for the C4 witness, detected at t = 0. -/
def c4wlast : ArbitrageOpportunity :=
  { id := "opp-0", timestamp := 0, signal := .mintDjed, dexPrice := 101 / 100,
    protocolPrice := 1, spread := 1 / 100, spreadPercent := 1, potentialProfit := 0,
    liquidity := 5000, status := .detected, source := "dex" }

/-- Tick at t = 301000 ms, 1 s after the head entry, unchanged spread, so
the non-significant replace-in-place branch runs (C5 counterexample). -/
def c5tick : TickInput :=
  { now := 301000, dexPrice := 101 / 100, protocolPrice := 1, spread := 1 / 100,
    spreadPercent := 1, signal := .mintDjed, liquidity := 5000, source := "dex" }

/-- Head entry detected at t = 300000 ms (age 1 s at the C5 tick). -/
def c5head : ArbitrageOpportunity :=
  { id := "opp-300000", timestamp := 300000, signal := .mintDjed, dexPrice := 101 / 100,
    protocolPrice := 1, spread := 1 / 100, spreadPercent := 1, potentialProfit := 0,
    liquidity := 5000, status := .detected, source := "dex" }

/-- A deeper `detected` entry detected at t = 0: age 301000 ms at the C5
tick, over the 300 s limit. -/
def c5old : ArbitrageOpportunity :=
  { id := "opp-old", timestamp := 0, signal := .mintDjed, dexPrice := 101 / 100,
    protocolPrice := 1, spread := 1 / 100, spreadPercent := 1, potentialProfit := 0,
    liquidity := 5000, status := .detected, source := "dex" }

/-- Tick at t = 301000 ms whose spread moved by 1 percentage point, so the
significant-change branch runs (C5 witness). -/
def c5wtick : TickInput :=
  { now := 301000, dexPrice := 102 / 100, protocolPrice := 1, spread := 2 / 100,
    spreadPercent := 2, signal := .mintDjed, liquidity := 5000, source := "dex" }

/-- Head entry aged 299000 ms at the C5 witness tick (under the limit). -/
def c5whead : ArbitrageOpportunity :=
  { id := "opp-2000", timestamp := 2000, signal := .mintDjed, dexPrice := 101 / 100,
    protocolPrice := 1, spread := 1 / 100, spreadPercent := 1, potentialProfit := 0,
    liquidity := 5000, status := .detected, source := "dex" }

/-- 25 sequential ticks, 1 s apart, each moving the spread by a full
percentage point (every tick is a significant change). -/
def c6ticks : List TickInput :=
  (List.range 25).map (fun i =>
    { now := 1000 * ((i : ℤ) + 1), dexPrice := 1, protocolPrice := 1, spread := 1,
      spreadPercent := (i : ℚ) + 1, signal := .mintDjed, liquidity := 5000,
      source := "dex" })

/-- The history after folding the 25 ticks over an empty initial history. -/
def c6run : List ArbitrageOpportunity :=
  c6ticks.foldl (fun hist t => arbitrageTick t hist) []

/-- A trigger condition on the reserve ratio with no stored data (C8). -/
def c8cond : Condition := { ctype := CondType.dsi_below, value := some 450 }

/-- A snapshot with no reserve ratio (C8). -/
def c8rtd : RealTimeData :=
  { reserveRatio := none, ergPrice := some (29 / 20), djedPrice := some 1,
    transactions := some 12 }

/-- A node guarded by `c8cond` (C8). -/
def c8node : WorkflowNode :=
  { id := "N1", atype := "djed_monitor", condition := some c8cond }

/-- A single-node workflow with an `always` condition (C10 witness). -/
def c10workflow : Workflow :=
  { id := "wf-one", name := "one",
    nodes := [{ id := "X", atype := "djed_monitor", condition := none }],
    connections := [] }

/-! ## Theorems -/

/-- C1: with `protocolStatus = CRITICAL`, executing any workflow with at
least one node yields a log whose record list is exactly the single
synthetic Sentinel record — status `failed`, naming the policy gate, with
no per-node record — and the run's overall status is `failed`. -/
theorem critical_gate_blocks_run (appletName : String → String) (wf : Workflow)
    (rtd : RealTimeData) (_hne : wf.nodes ≠ []) :
    (executeWorkflow appletName wf (some PStatus.CRITICAL) rtd).nodeExecutions
        = [sentinelBlockedExecution]
      ∧ sentinelBlockedExecution.status = ExecStatus.failed
      ∧ sentinelBlockedExecution.nodeName = "[SENTINEL_POLICY]"
      ∧ (executeWorkflow appletName wf (some PStatus.CRITICAL) rtd).status = RunStatus.failed := by
  refine ⟨?_, rfl, rfl, ?_⟩ <;> simp [executeWorkflow]

/-- C1 witness: the gate on a concrete one-node workflow. -/
theorem critical_gate_blocks_run_witness :
    (executeWorkflow (fun _ => "Djed Monitor")
        { id := "wf1", name := "w", nodes := [{ id := "A", atype := "djed_monitor", condition := none }],
          connections := [] }
        (some PStatus.CRITICAL)
        { reserveRatio := some 500, ergPrice := some 1, djedPrice := some 1, transactions := none }).nodeExecutions
      = [sentinelBlockedExecution] := by
  exact (critical_gate_blocks_run (fun _ => "Djed Monitor") _ _ (by decide)).1

/-- C2: the status classification is `OPTIMAL` iff `ratio ≥ 400`,
`WARNING` iff `200 ≤ ratio < 400`, and `CRITICAL` iff `ratio < 200`. -/
theorem classifyStatus_bands (r : ℚ) :
    (classifyStatus r = ProtocolStatus3.OPTIMAL ↔ 400 ≤ r)
      ∧ (classifyStatus r = ProtocolStatus3.WARNING ↔ 200 ≤ r ∧ r < 400)
      ∧ (classifyStatus r = ProtocolStatus3.CRITICAL ↔ r < 200) := by
  unfold classifyStatus
  split_ifs with h1 h2 <;> (simp_all; try linarith)

/-- C3: `calculateNetProfit` returns exactly `max 0 (grossProfit − costs)`
with `grossProfit = (amount / dexPrice) · |spread|` and
`costs = amount·dexFeeRate + amount·slippageRate + fixedGasCost`, and the
result is never negative, for every input combination. -/
theorem calculateNetProfit_spec (dexFeeRate slippageRate fixedGasCost defaultTradeAmount
    dexPrice protocolPrice spread : ℚ) (tradeAmount : Option ℚ) :
    calculateNetProfit dexFeeRate slippageRate fixedGasCost defaultTradeAmount
        dexPrice protocolPrice spread tradeAmount
      = max 0 (tradeAmount.getD defaultTradeAmount / dexPrice * |spread|
          - (tradeAmount.getD defaultTradeAmount * dexFeeRate
            + tradeAmount.getD defaultTradeAmount * slippageRate + fixedGasCost))
      ∧ 0 ≤ calculateNetProfit dexFeeRate slippageRate fixedGasCost defaultTradeAmount
          dexPrice protocolPrice spread tradeAmount :=
  ⟨rfl, le_max_left 0 _⟩

/-- C4 counterexample: the claim's in-place condition "less than 60
seconds elapsed" is false at exactly 60000 ms elapsed — the code still
replaces in place there (its test is `elapsed > 60000` for prepending). -/
theorem history_update_boundary_counterexample :
    ¬ (∀ (t : TickInput) (lastOpp : ArbitrageOpportunity)
        (rest : List ArbitrageOpportunity),
        t.signal ≠ Signal.noClearEdge → |t.spreadPercent| ≥ 1 / 2 →
        (arbitrageTick t (lastOpp :: rest) = newOpportunity t :: rest
          ↔ |lastOpp.spreadPercent - t.spreadPercent| ≤ 1 / 10
            ∧ t.now - lastOpp.timestamp < 60000)) := by
  intro h
  have hiff := h c4tick c4last [] (by decide) (by norm_num [c4tick])
  have hresult : arbitrageTick c4tick [c4last] = newOpportunity c4tick :: [] := by
    norm_num +decide [arbitrageTick, isSignificantChange, c4tick, c4last]
  have hrhs := (hiff.mp hresult).2
  norm_num [c4tick, c4last] at hrhs

/-- C4 (amended): on a tick with a live signal and |spreadPercent| ≥ 0.5,
the new reading replaces the most recent stored entry in place iff the
spread moved by ≤ 0.1 percentage points and at most 60 seconds (≤ 60000
ms, not < 60000 ms) elapsed since its detection; otherwise the new entry
is prepended, the list truncated to 20, and the expiry pass applied. -/
theorem history_update_policy (t : TickInput) (lastOpp : ArbitrageOpportunity)
    (rest : List ArbitrageOpportunity) (hs : t.signal ≠ Signal.noClearEdge)
    (hsp : |t.spreadPercent| ≥ 1 / 2) :
    arbitrageTick t (lastOpp :: rest)
      = if |lastOpp.spreadPercent - t.spreadPercent| ≤ 1 / 10
            ∧ t.now - lastOpp.timestamp ≤ 60000 then
          newOpportunity t :: rest
        else ((newOpportunity t :: lastOpp :: rest).take 20).map (expireOld t.now) := by
  unfold arbitrageTick isSignificantChange
  rw [if_pos ⟨hs, hsp⟩]
  simp only [List.head?_cons]
  by_cases hcond : |lastOpp.spreadPercent - t.spreadPercent| ≤ 1 / 10
      ∧ t.now - lastOpp.timestamp ≤ 60000
  · rw [if_pos hcond]
    have hb : (decide (|lastOpp.spreadPercent - t.spreadPercent| > 1 / 10)
        || decide (t.now - lastOpp.timestamp > 60000)) = false := by
      simp only [Bool.or_eq_false_iff, decide_eq_false_iff_not, not_lt]
      exact ⟨hcond.1, hcond.2⟩
    simp only [hb]
    simp
  · rw [if_neg hcond]
    have hb : (decide (|lastOpp.spreadPercent - t.spreadPercent| > 1 / 10)
        || decide (t.now - lastOpp.timestamp > 60000)) = true := by
      rcases not_and_or.mp hcond with hc | hc
      · simp only [Bool.or_eq_true, decide_eq_true_eq]
        exact Or.inl (not_le.mp hc)
      · simp only [Bool.or_eq_true, decide_eq_true_eq]
        exact Or.inr (not_le.mp hc)
    simp only [hb]
    simp

/-- C4 witness: a fresh reading 1 s after the head entry with an
unchanged spread replaces it in place. -/
theorem history_update_policy_witness :
    arbitrageTick c4wtick [c4wlast] = newOpportunity c4wtick :: [] := by
  rw [history_update_policy c4wtick c4wlast [] (by decide) (by norm_num [c4wtick])]
  norm_num [c4wtick, c4wlast]

/-- C5 counterexample: the over-age expiry scan does not run on every
tick — on a replace-in-place tick (live signal, non-significant change) a
`detected` entry aged 301000 ms below the head stays `detected`. -/
theorem expiry_every_tick_counterexample :
    ¬ (∀ (t : TickInput) (prev : List ArbitrageOpportunity),
        t.signal ≠ Signal.noClearEdge → |t.spreadPercent| ≥ 1 / 2 →
        ∀ opp ∈ arbitrageTick t prev,
          t.now - opp.timestamp > 300000 → opp.status = OppStatus.expired) := by
  intro h
  have hres : arbitrageTick c5tick [c5head, c5old] = newOpportunity c5tick :: [c5old] := by
    norm_num +decide [arbitrageTick, isSignificantChange, c5tick, c5head, c5old]
  have hmem : c5old ∈ arbitrageTick c5tick [c5head, c5old] := by
    rw [hres]; exact List.mem_cons_of_mem _ (List.mem_singleton_self _)
  have hst := h c5tick [c5head, c5old] (by decide) (by norm_num [c5tick]) c5old hmem
    (by norm_num [c5tick, c5old])
  exact absurd hst (by decide)

/-- Expiry never touches an entry's timestamp. -/
theorem expireOld_timestamp (now : ℤ) (o : ArbitrageOpportunity) :
    (expireOld now o).timestamp = o.timestamp := by
  unfold expireOld; split <;> rfl

/-- An entry older than 300 s is `expired` after the expiry pass. -/
theorem expireOld_overage (now : ℤ) (o : ArbitrageOpportunity)
    (h : now - o.timestamp > 300000) : (expireOld now o).status = OppStatus.expired := by
  unfold expireOld
  cases hst : o.status with
  | detected => rw [if_pos ⟨h, rfl⟩]
  | expired =>
    rw [if_neg (by intro hc; exact absurd hc.2 (by decide))]
    exact hst

/-- C5 (amended): on a tick that adds a new entry (live signal,
|spreadPercent| ≥ 0.5, significant change), the run maps the expiry pass
over the truncated list, so every entry of the result older than 300 s is
`expired`, and the pass leaves entries aged ≤ 300 s untouched. On
replace-in-place ticks no expiry scan runs (see the counterexample). -/
theorem significant_tick_expiry (t : TickInput) (prev : List ArbitrageOpportunity)
    (hs : t.signal ≠ Signal.noClearEdge) (hsp : |t.spreadPercent| ≥ 1 / 2)
    (hsig : isSignificantChange t.now t.spreadPercent prev = true) :
    arbitrageTick t prev = ((newOpportunity t :: prev).take 20).map (expireOld t.now)
      ∧ (∀ opp ∈ arbitrageTick t prev,
          t.now - opp.timestamp > 300000 → opp.status = OppStatus.expired)
      ∧ (∀ opp : ArbitrageOpportunity, t.now - opp.timestamp ≤ 300000 →
          expireOld t.now opp = opp) := by
  have hbranch : arbitrageTick t prev
      = ((newOpportunity t :: prev).take 20).map (expireOld t.now) := by
    unfold arbitrageTick
    rw [if_pos ⟨hs, hsp⟩, if_pos hsig]
  refine ⟨hbranch, ?_, ?_⟩
  · intro opp hmem hage
    rw [hbranch] at hmem
    obtain ⟨o, _, rfl⟩ := List.mem_map.mp hmem
    rw [expireOld_timestamp] at hage
    exact expireOld_overage t.now o hage
  · intro opp hage
    unfold expireOld
    rw [if_neg (by intro hc; exact absurd hc.1 (not_lt.mpr hage))]

/-- C5 witness: on a significant-change tick, the entry aged 301000 ms
flips to `expired` while the one aged 299000 ms stays `detected`. -/
theorem significant_tick_expiry_witness :
    (∀ opp ∈ arbitrageTick c5wtick [c5whead, c5old],
        c5wtick.now - opp.timestamp > 300000 → opp.status = OppStatus.expired)
      ∧ (arbitrageTick c5wtick [c5whead, c5old]).map (fun o => (o.timestamp, o.status))
          = [(301000, OppStatus.detected), (2000, OppStatus.detected),
             (0, OppStatus.expired)] := by
  refine ⟨(significant_tick_expiry c5wtick [c5whead, c5old] (by decide)
      (by norm_num [c5wtick])
      (by norm_num +decide [isSignificantChange, c5wtick, c5whead])).2.1, ?_⟩
  norm_num +decide [arbitrageTick, isSignificantChange, c5wtick, c5whead, c5old,
    newOpportunity, expireOld]

/-- C6: a tick never grows the history beyond 20 entries, and after the
25 sequential significant-change ticks of `c6ticks` the history has
length exactly 20 and holds exactly the 20 most recent opportunities
(timestamps 25000 down to 6000; the 5 oldest are dropped). -/
theorem history_bounded :
    (∀ (t : TickInput) (prev : List ArbitrageOpportunity),
        prev.length ≤ 20 → (arbitrageTick t prev).length ≤ 20)
      ∧ c6run.length = 20
      ∧ c6run.map (fun o => o.timestamp)
          = (List.range 20).map (fun i => (25000 - 1000 * (i : ℤ))) := by
  refine ⟨?_, ?_, ?_⟩
  · intro t prev hlen
    unfold arbitrageTick
    split
    · split
      · simp only [List.length_map, List.length_take]
        exact min_le_left _ _
      · simp only [List.length_cons, List.length_drop]
        omega
    · simpa using hlen
  · norm_num +decide [c6run, c6ticks, arbitrageTick, isSignificantChange, newOpportunity,
      expireOld, List.range_succ]
  · norm_num +decide [c6run, c6ticks, arbitrageTick, isSignificantChange, newOpportunity,
      expireOld, List.range_succ]

/-- C6 witness: the bound applied to a concrete 2-entry history. -/
theorem history_bounded_witness :
    (arbitrageTick c4wtick [c4wlast, c5old]).length ≤ 20 :=
  history_bounded.1 c4wtick [c4wlast, c5old] (by decide)

/-- Folding preserves any invariant each step preserves. -/
theorem foldl_preserves {α β : Type} (P : α → Prop) (f : α → β → α)
    (hf : ∀ a b, P a → P (f a b)) :
    ∀ (l : List β) (a : α), P a → P (l.foldl f a)
  | [], _, ha => ha
  | b :: l, a, ha => foldl_preserves P f hf l (f a b) (hf a b ha)

/-- The walker `executeNode` preserves the executor invariant for every fuel value:
recorded node ids stay distinct, recorded ids lie in the visited set, and
no record is `failed`. -/
theorem executeNode_inv (appletName : String → String) (wf : Workflow)
    (rtd : RealTimeData) :
    ∀ (fuel : ℕ) (node : WorkflowNode) (st : List NodeExecution × List String),
      ExecInv st → ExecInv (executeNode appletName wf rtd fuel node st) := by
  intro fuel
  induction fuel with
  | zero => exact fun node st h => h
  | succ fuel ih =>
    intro node st h
    obtain ⟨execs, visited⟩ := st
    by_cases hv : node.id ∈ visited
    · simpa [executeNode, hv] using h
    · obtain ⟨h1, h2, h3⟩ := h
      have hnotin : node.id ∉ execs.map (fun e => e.nodeId) := by
        intro hc
        obtain ⟨e, he, heq⟩ := List.mem_map.mp hc
        exact hv (heq ▸ h2 e he)
      have hmid : ∀ (e : NodeExecution), e.nodeId = node.id →
          e.status ≠ ExecStatus.failed →
          ExecInv (execs ++ [e], node.id :: visited) := by
        intro e heid hest
        refine ⟨?_, ?_, ?_⟩
        · rw [List.map_append, List.nodup_append]
          refine ⟨h1, by simp, ?_⟩
          intro x hx
          simp only [List.map_cons, List.map_nil, List.mem_cons, List.not_mem_nil,
            or_false, heid]
          intro hxx
          exact hnotin (hxx ▸ hx)
        · intro x hx
          rcases List.mem_append.mp hx with hx | hx
          · exact List.mem_cons_of_mem _ (h2 x hx)
          · rw [List.mem_singleton.mp hx, heid]
            exact List.mem_cons_self _ _
        · intro x hx
          rcases List.mem_append.mp hx with hx | hx
          · exact h3 x hx
          · rw [List.mem_singleton.mp hx]
            exact hest
      simp only [executeNode, hv, if_false, ite_false]
      split
      · refine foldl_preserves ExecInv _ (fun a b ha => ih b a ha) _ _ ?_
        exact hmid _ rfl (by simp)
      · exact hmid _ rfl (by simp)

/-- Executing a list of entry nodes from an invariant-satisfying state
preserves the executor invariant. -/
theorem foldl_execInv (a : String → String) (wf : Workflow) (rtd : RealTimeData)
    (fuel : ℕ) (l : List WorkflowNode) (st0 : List NodeExecution × List String)
    (h0 : ExecInv st0) :
    ExecInv (l.foldl (fun st n => executeNode a wf rtd fuel n st) st0) :=
  foldl_preserves ExecInv (fun st n => executeNode a wf rtd fuel n st)
    (fun st n hst => executeNode_inv a wf rtd fuel n st hst) l st0 h0

/-- C7: on the diamond graph A→B, A→C, B→D, C→D with all conditions
holding, node D yields exactly one record (run order A, B, D, C), and in
general every run's records carry pairwise-distinct node ids, so each
node id produces at most one record per run. -/
theorem diamond_single_execution :
    ((executeWorkflow (fun _ => "applet") diamondWorkflow (some PStatus.OPTIMAL)
        fullRtd).nodeExecutions.map (fun e => e.nodeId) = ["A", "B", "D", "C"])
      ∧ (((executeWorkflow (fun _ => "applet") diamondWorkflow (some PStatus.OPTIMAL)
          fullRtd).nodeExecutions.filter (fun e => e.nodeId = "D")).length = 1)
      ∧ (∀ (appletName : String → String) (wf : Workflow) (ps : Option PStatus)
          (rtd : RealTimeData),
          ((executeWorkflow appletName wf ps rtd).nodeExecutions.map
            (fun e => e.nodeId)).Nodup) := by
  refine ⟨by decide, by decide, ?_⟩
  intro a wf ps rtd
  by_cases hps : ps = some PStatus.CRITICAL
  · simp [executeWorkflow, hps]
  · have hps' : (ps = some PStatus.CRITICAL) = False := by simp [hps]
    simp only [executeWorkflow, hps', ite_false]
    exact (foldl_execInv a wf rtd _ _ ([], []) ⟨by simp, by simp, by simp⟩).1

/-- C8: when the snapshot lacks the reserve ratio or the protocol price,
a `dsi_below`/`dsi_above`/`price_below`/`price_above` condition evaluates
to false, and an unvisited node guarded by it is recorded as `skipped`
with null output (and its outgoing edges are not followed). -/
theorem missing_data_skips_node (cond : Condition) (rtd : RealTimeData)
    (hct : cond.ctype = CondType.dsi_below ∨ cond.ctype = CondType.dsi_above
      ∨ cond.ctype = CondType.price_below ∨ cond.ctype = CondType.price_above)
    (hmiss : rtd.reserveRatio = none ∨ rtd.djedPrice = none) :
    evaluateCondition cond rtd = false
      ∧ (∀ (appletName : String → String) (wf : Workflow) (fuel : ℕ)
          (node : WorkflowNode) (execs : List NodeExecution) (visited : List String),
          node.condition = some cond → node.id ∉ visited →
          executeNode appletName wf rtd (fuel + 1) node (execs, visited)
            = (execs ++ [{ nodeId := node.id, nodeName := appletName node.atype,
                           status := ExecStatus.skipped, output := none, error := none }],
               node.id :: visited)) := by
  have heval : evaluateCondition cond rtd = false := by
    rcases hmiss with hm | hm
    · cases hd : rtd.djedPrice <;> simp [evaluateCondition, hm, hd]
    · cases hr : rtd.reserveRatio <;> simp [evaluateCondition, hm, hr]
  have hne : (cond.ctype = CondType.always) = False := by
    rcases hct with h | h | h | h <;> rw [h] <;> simp
  refine ⟨heval, ?_⟩
  intro a wf fuel node execs visited hcond hnv
  simp [executeNode, hnv, hcond, hne, heval]

/-- C8 witness: with no reserve ratio stored, a `dsi_below` node is
skipped with null output. -/
theorem missing_data_skips_node_witness :
    evaluateCondition c8cond c8rtd = false
      ∧ executeNode (fun _ => "Djed Monitor") diamondWorkflow c8rtd 1 c8node ([], [])
          = ([{ nodeId := "N1", nodeName := "Djed Monitor",
                status := ExecStatus.skipped, output := none, error := none }], ["N1"]) := by
  have h := missing_data_skips_node c8cond c8rtd (Or.inl rfl) (Or.inl rfl)
  exact ⟨h.1, h.2 (fun _ => "Djed Monitor") diamondWorkflow 0 c8node [] [] rfl (by decide)⟩

/-- C9 counterexample: the retry helper never awaits a 4 s backoff — with
3 total attempts only two waits occur (1 s and 2 s), so the claimed wait
sequence 1s/2s/4s is wrong. -/
theorem retry_waits_counterexample :
    ¬ (∀ (attempts : ℕ → Except String ℕ),
        (∀ i, attempts i = Except.error "boom") →
        (fetchWithRetry attempts 3 1000).delays = [1000, 2000, 4000]) := by
  intro h
  have hd := h (fun _ => Except.error "boom") (fun _ => rfl)
  have hne : (fetchWithRetry (fun _ => (Except.error "boom" : Except String ℕ))
      3 1000).delays = [1000, 2000] := by decide
  rw [hne] at hd
  exact absurd hd (by decide)

/-- C9 (amended): the helper makes at most 3 fetch attempts; the waits
between successive attempts follow `initialDelay · 2^attempt` — 1 s then
2 s, a prefix of the schedule, the 4 s step being unreachable — and when
all three attempts fail it throws the last error. -/
theorem retry_schedule {T : Type} (attempts : ℕ → Except String T) :
    (fetchWithRetry attempts 3 1000).attemptsMade ≤ 3
      ∧ (fetchWithRetry attempts 3 1000).delays <+: [1000, 2000]
      ∧ (∀ e0 e1 e2, attempts 0 = Except.error e0 → attempts 1 = Except.error e1 →
          attempts 2 = Except.error e2 →
          (fetchWithRetry attempts 3 1000).result = Except.error e2
            ∧ (fetchWithRetry attempts 3 1000).delays = [1000, 2000]
            ∧ (fetchWithRetry attempts 3 1000).attemptsMade = 3) := by
  unfold fetchWithRetry
  rcases h0 : attempts 0 with e0 | v0
  · rcases h1 : attempts 1 with e1 | v1
    · rcases h2 : attempts 2 with e2 | v2
      · simp only [fetchWithRetryGo, h0, h1, h2]
        norm_num
      · simp only [fetchWithRetryGo, h0, h1, h2]
        norm_num
    · simp only [fetchWithRetryGo, h0, h1]
      norm_num
      intro a b c ha hb
      exact absurd hb (by simp)
  · simp only [fetchWithRetryGo, h0]
    norm_num
    intro a b c ha
    exact absurd ha (by simp)

/-- C9 witness: three failing attempts — two waits (1 s, 2 s), the last
error thrown, exactly 3 attempts made. -/
theorem retry_schedule_witness :
    (fetchWithRetry (fun _ => (Except.error "boom" : Except String ℕ)) 3 1000).result
        = Except.error "boom"
      ∧ (fetchWithRetry (fun _ => (Except.error "boom" : Except String ℕ))
          3 1000).delays = [1000, 2000]
      ∧ (fetchWithRetry (fun _ => (Except.error "boom" : Except String ℕ))
          3 1000).attemptsMade = 3 :=
  (retry_schedule (fun _ => Except.error "boom")).2.2 "boom" "boom" "boom" rfl rfl rfl

/-- C10: for every protocol status other than CRITICAL, every per-node
record of a run is `success` or `skipped` — never `failed` — so the run's
overall status is `completed`; a `failed` run arises only from the
CRITICAL policy gate. -/
theorem non_critical_records_never_fail (appletName : String → String) (wf : Workflow)
    (ps : Option PStatus) (rtd : RealTimeData) (h : ps ≠ some PStatus.CRITICAL) :
    (∀ e ∈ (executeWorkflow appletName wf ps rtd).nodeExecutions,
        e.status = ExecStatus.success ∨ e.status = ExecStatus.skipped)
      ∧ (executeWorkflow appletName wf ps rtd).status = RunStatus.completed := by
  have hps : (ps = some PStatus.CRITICAL) = False := by simp [h]
  have hnf : ∀ e ∈ (executeWorkflow appletName wf ps rtd).nodeExecutions,
      e.status ≠ ExecStatus.failed := by
    simp only [executeWorkflow, hps, ite_false]
    exact fun e he =>
      (foldl_execInv appletName wf rtd _ _ ([], []) ⟨by simp, by simp, by simp⟩).2.2 e he
  constructor
  · intro e he
    cases hst : e.status
    · exact Or.inl rfl
    · exact Or.inr rfl
    · exact absurd hst (hnf e he)
  · have hany : ((executeWorkflow appletName wf ps rtd).nodeExecutions.any
        (fun n => decide (n.status = ExecStatus.failed))) = false := by
      rw [List.any_eq_false]
      intro e he
      simpa using hnf e he
    simp only [executeWorkflow, hps, ite_false] at hany ⊢
    simp only [hany]
    simp

/-- C10 witness: a one-node workflow with an absent protocol status
completes with no failed record. -/
theorem non_critical_records_never_fail_witness :
    (executeWorkflow (fun _ => "Djed Monitor") c10workflow none fullRtd).status
      = RunStatus.completed :=
  (non_critical_records_never_fail (fun _ => "Djed Monitor") c10workflow none fullRtd
    (by decide)).2

end DjedOps
